import Mathlib

set_option maxRecDepth 8000

/-!
# BTCTX reporting core: shallow embedding and verification

This file embeds `backend/services/reports/reporting_core.py` in Lean 4 and
proves or refutes the frozen claims about it.

Modelling conventions:
* Python `Decimal` values are embedded as `ℚ` (exact arbitrary-precision
  arithmetic on the values that occur).
* Python `float(...)` conversions at the output boundary are modelled as the
  identity on the exact decimal value: the claims under study are about the
  decimal values, and the spec mandates decimal math with conversion to
  floating display values only at the output boundary.
* Nullable columns are `Option`; a Python truthiness test such as
  `if not tx.source` is embedded as "is `none` or empty", matching Python
  semantics on the column's type.  `x or Decimal("0.0")` yields the value 0
  exactly when `x` is `None` or `0`, so it is value-equivalent to
  `Option.getD x 0`.
* Timestamps are opaque: `timestamp.isoformat()` is modelled by carrying the
  timestamp as an optional string.
* Database queries are modelled by their (already filtered and ordered)
  result lists, passed explicitly as the input snapshot; the external
  re-lot trigger `recalculate_all_transactions` returns nothing that the
  aggregator consumes and is modelled as already applied to the snapshot.
* Python `str.lower()` is modelled on the ASCII range (all constants the
  code compares against are ASCII).
-/

/-- Embeds the `Transaction` model: the columns that `reporting_core.py` reads. -/
structure Transaction where
  id : Nat
  timestamp : Option String
  type : String
  from_account_id : Option Nat
  to_account_id : Option Nat
  amount : Option ℚ
  fee_amount : Option ℚ
  fee_currency : Option String
  cost_basis_usd : Option ℚ
  proceeds_usd : Option ℚ
  realized_gain_usd : Option ℚ
  holding_period : Option String
  source : Option String
  purpose : Option String
  is_locked : Bool
  created_at : Option String
  updated_at : Option String
deriving Repr, DecidableEq

/-- Embeds the `BitcoinLot` model columns read by `_build_end_of_year_balances`.
`remaining_btc` is non-optional because the query filters `remaining_btc > 0`
and the code multiplies it without a null guard. -/
structure BitcoinLot where
  id : Nat
  acquired_date : Option String
  total_btc : Option ℚ
  remaining_btc : ℚ
  cost_basis_usd : Option ℚ
deriving Repr, DecidableEq

/-- Embeds the `LotDisposal` model columns read by
`_build_lot_disposals_for_period`. -/
structure LotDisposalRec where
  id : Nat
  transaction_id : Nat
  lot_id : Nat
  disposed_btc : Option ℚ
  disposal_basis_usd : Option ℚ
  proceeds_usd_for_that_portion : Option ℚ
  realized_gain_usd : Option ℚ
  holding_period : Option String
deriving Repr, DecidableEq

/-- Embeds a `LedgerEntry` together with the joined data the projector reads:
`le.transaction.timestamp` (denormalized through the relationship) and
`le.account.name` (`none` models a missing `le.account`). -/
structure LedgerEntryRec where
  id : Nat
  transaction_id : Nat
  account_id : Nat
  amount : ℚ
  currency : String
  entry_type : String
  transaction_timestamp : Option String
  account_name : Option String
deriving Repr, DecidableEq

/-- A transaction with every nullable field absent and zero/empty defaults,
used as a base for concrete test inputs. -/
def baseTx : Transaction :=
  { id := 0, timestamp := none, type := "", from_account_id := none,
    to_account_id := none, amount := none, fee_amount := none,
    fee_currency := none, cost_basis_usd := none, proceeds_usd := none,
    realized_gain_usd := none, holding_period := none, source := none,
    purpose := none, is_locked := false, created_at := none,
    updated_at := none }

/-- Floor of a rational, as an integer (`q.den` is always positive). -/
def ratFloor (q : ℚ) : ℤ := q.num.fdiv q.den

/-- Ceiling of a rational, as an integer. -/
def ratCeil (q : ℚ) : ℤ := -ratFloor (-q)

/-- Round a rational to the nearest integer with ties toward zero:
Python's `ROUND_HALF_DOWN` rounding mode. -/
def roundHalfDown (x : ℚ) : ℤ :=
  if 0 ≤ x then ratCeil (x - 1/2) else ratFloor (x + 1/2)

/-- Python's `Decimal.quantize(Decimal("0.01"), ROUND_HALF_DOWN)`: round to 2
decimal places, ties toward zero. -/
def quantize2 (x : ℚ) : ℚ := (roundHalfDown (x * 100) : ℚ) / 100

/-- Tests whether the first list occurs as a contiguous sublist of the second. -/
def containsSub (needle : List Char) : List Char → Bool
  | [] => needle.isEmpty
  | c :: t => needle.isPrefixOf (c :: t) || containsSub needle t

/-- Python's `str.lower()` on one ASCII character. -/
def lowerChar (c : Char) : Char :=
  if 65 ≤ c.toNat ∧ c.toNat ≤ 90 then Char.ofNat (c.toNat + 32) else c

/-- Python's `str.lower()` over the ASCII range. -/
def lowerStr (s : String) : String := String.mk (s.data.map lowerChar)

/-- Python's `"needle" in haystack.lower()`: case-insensitive substring test. -/
def containsLower (haystack needle : String) : Bool :=
  containsSub needle.data (lowerStr haystack).data

/-- Python truthiness of an optional string column: `True` exactly when
present and non-empty. -/
def strTruthy : Option String → Bool
  | some s => !(s == "")
  | none => false

-- ---------------------------------------------------------------------------
-- Section 4.1 classifier predicates, written from the spec's words.  They are
-- the spec side of the refinement comparisons below.
-- ---------------------------------------------------------------------------

/-- Spec 4.1 Disposal predicate: type is Sell or Withdrawal AND
`realized_gain_usd` is not null. -/
def disposalPred (tx : Transaction) : Bool :=
  (tx.type == "Sell" || tx.type == "Withdrawal") && tx.realized_gain_usd.isSome

/-- Spec 4.1 Income predicate: type is Deposit AND `source` is non-empty. -/
def incomePred (tx : Transaction) : Bool :=
  tx.type == "Deposit" && strTruthy tx.source

/-- Spec 4.1 sub-bucket test: `source` contains "mining". -/
def srcMining (tx : Transaction) : Bool :=
  containsLower (tx.source.getD "") "mining"

/-- Spec 4.1 sub-bucket test: `source` contains "reward" or "interest". -/
def srcReward (tx : Transaction) : Bool :=
  containsLower (tx.source.getD "") "reward" || containsLower (tx.source.getD "") "interest"

/-- The upstream default routing: a disposal is long-term exactly when
`holding_period` equals "LONG". -/
def isLong (tx : Transaction) : Bool := tx.holding_period == some "LONG"

-- ---------------------------------------------------------------------------
-- _build_capital_gains_summary
-- ---------------------------------------------------------------------------

/-- One proceeds/basis/gain triple of the capital gains summary. -/
structure GainsBucket where
  proceeds : ℚ
  basis : ℚ
  gain : ℚ
deriving Repr, DecidableEq

/-- The loop state of `_build_capital_gains_summary`: running disposal count
and the short-term and long-term accumulators. -/
structure GainsAcc where
  count : Nat
  st : GainsBucket
  lt : GainsBucket
deriving Repr, DecidableEq

/-- One iteration of the `_build_capital_gains_summary` loop: skip unless the
type is Sell or Withdrawal and `realized_gain_usd` is non-null; then count the
disposal and add proceeds/basis/gain (nulls as zero) into the long-term
accumulator when `holding_period == "LONG"`, otherwise into the short-term
accumulator. -/
def gainsStep (acc : GainsAcc) (tx : Transaction) : GainsAcc :=
  if tx.type == "Sell" || tx.type == "Withdrawal" then
    match tx.realized_gain_usd with
    | none => acc
    | some g =>
      let proceeds := tx.proceeds_usd.getD 0
      let basis := tx.cost_basis_usd.getD 0
      let gain := g
      if tx.holding_period == some "LONG" then
        { count := acc.count + 1, st := acc.st,
          lt := { proceeds := acc.lt.proceeds + proceeds,
                  basis := acc.lt.basis + basis,
                  gain := acc.lt.gain + gain } }
      else
        { count := acc.count + 1,
          st := { proceeds := acc.st.proceeds + proceeds,
                  basis := acc.st.basis + basis,
                  gain := acc.st.gain + gain },
          lt := acc.lt }
  else acc

/-- The value returned by `_build_capital_gains_summary`. -/
structure CapitalGainsSummary where
  number_of_disposals : Nat
  short_term : GainsBucket
  long_term : GainsBucket
  total : GainsBucket
deriving Repr, DecidableEq

/-- Embeds `_build_capital_gains_summary`: run the loop from zeroed
accumulators, then emit the buckets and their elementwise decimal sum. -/
def buildCapitalGainsSummary (txns : List Transaction) : CapitalGainsSummary :=
  let acc := txns.foldl gainsStep ⟨0, ⟨0, 0, 0⟩, ⟨0, 0, 0⟩⟩
  { number_of_disposals := acc.count,
    short_term := acc.st,
    long_term := acc.lt,
    total := { proceeds := acc.st.proceeds + acc.lt.proceeds,
               basis := acc.st.basis + acc.lt.basis,
               gain := acc.st.gain + acc.lt.gain } }

-- ---------------------------------------------------------------------------
-- _build_income_summary
-- ---------------------------------------------------------------------------

/-- The value returned by `_build_income_summary`; the four keys are the
structure's fields, so all four are always present. -/
structure IncomeSummary where
  Mining : ℚ
  Reward : ℚ
  Other : ℚ
  Total : ℚ
deriving Repr, DecidableEq

/-- One iteration of the `_build_income_summary` loop: skip unless the type is
Deposit with a truthy `source`; then add `cost_basis_usd` (null as zero) into
the sub-bucket selected by lower-cased substring tests, and into the total. -/
def incomeStep (acc : IncomeSummary) (tx : Transaction) : IncomeSummary :=
  if tx.type == "Deposit" && strTruthy tx.source then
    let v := tx.cost_basis_usd.getD 0
    let srcLower := lowerStr (tx.source.getD "")
    if containsSub "mining".data srcLower.data then
      { acc with Mining := acc.Mining + v, Total := acc.Total + v }
    else if containsSub "reward".data srcLower.data || containsSub "interest".data srcLower.data then
      { acc with Reward := acc.Reward + v, Total := acc.Total + v }
    else
      { acc with Other := acc.Other + v, Total := acc.Total + v }
  else acc

/-- Embeds `_build_income_summary`. -/
def buildIncomeSummary (txns : List Transaction) : IncomeSummary :=
  txns.foldl incomeStep ⟨0, 0, 0, 0⟩

-- ---------------------------------------------------------------------------
-- _build_asset_summary
-- ---------------------------------------------------------------------------

/-- One row of the asset summary. -/
structure AssetRow where
  asset : String
  profit : ℚ
  loss : ℚ
  net : ℚ
deriving Repr, DecidableEq

/-- Embeds `_build_asset_summary`: returns a hardcoded dummy row for BTC,
ignoring its argument. -/
def buildAssetSummary (_txns : List Transaction) : List AssetRow :=
  [{ asset := "BTC", profit := 3203199/100, loss := 31507/10, net := 2888129/100 }]

-- ---------------------------------------------------------------------------
-- _build_end_of_year_balances
-- ---------------------------------------------------------------------------

/-- The demo EOY price hardcoded in `_build_end_of_year_balances`:
`Decimal("94153.13")`. -/
def eoyPrice : ℚ := 9415313/100

/-- One row of the end-of-year balances list. -/
structure EoyRow where
  lot_id : Option Nat
  asset : String
  acquired_date : Option String
  quantity : ℚ
  cost : ℚ
  value : ℚ
  description : String
deriving Repr, DecidableEq

/-- The fraction computed per lot: `remaining_btc / total_btc` when
`lot.total_btc and lot.total_btc > 0` is truthy (non-null, nonzero and
positive), else `Decimal("1")`. -/
def lotFraction (lot : BitcoinLot) : ℚ :=
  match lot.total_btc with
  | some t => if 0 < t then lot.remaining_btc / t else 1
  | none => 1

/-- The per-lot row of `_build_end_of_year_balances`: remaining quantity,
proportional cost basis and current value at the hardcoded price, both
quantized to cents with `ROUND_HALF_DOWN`. -/
def eoyRowOf (lot : BitcoinLot) : EoyRow :=
  let fraction := lotFraction lot
  let cost_basis_usd := lot.cost_basis_usd.getD 0
  let partial_cost := quantize2 (cost_basis_usd * fraction)
  let cur_value := quantize2 (lot.remaining_btc * eoyPrice)
  { lot_id := some lot.id, asset := "BTC", acquired_date := lot.acquired_date,
    quantity := lot.remaining_btc, cost := partial_cost, value := cur_value,
    description := "EOY approx @ $94153.13 / BTC" }

/-- Embeds `_build_end_of_year_balances` over the open-lot query result: one
row per lot, then a synthetic TOTAL row summing exactly the emitted per-row
quantity, cost and value (as the loop's running totals do). -/
def buildEndOfYearBalances (openLots : List BitcoinLot) : List EoyRow :=
  let rows := openLots.map eoyRowOf
  rows ++ [{ lot_id := none, asset := "TOTAL", acquired_date := none,
             quantity := (rows.map EoyRow.quantity).sum,
             cost := (rows.map EoyRow.cost).sum,
             value := (rows.map EoyRow.value).sum,
             description := "" }]

-- ---------------------------------------------------------------------------
-- _build_capital_gains_transactions
-- ---------------------------------------------------------------------------

/-- One row of the capital gains detail list. -/
structure CapGainRow where
  tx_id : Nat
  date_sold : Option String
  date_acquired : String
  asset : String
  amount : ℚ
  cost : ℚ
  proceeds : ℚ
  gain_loss : ℚ
  holding_period : Option String
deriving Repr, DecidableEq

/-- The row emitted by `_build_capital_gains_transactions` for one
transaction. -/
def capGainRowOf (tx : Transaction) : CapGainRow :=
  { tx_id := tx.id, date_sold := tx.timestamp, date_acquired := "(multiple lots)",
    asset := "BTC", amount := tx.amount.getD 0, cost := tx.cost_basis_usd.getD 0,
    proceeds := tx.proceeds_usd.getD 0, gain_loss := tx.realized_gain_usd.getD 0,
    holding_period := tx.holding_period }

/-- Embeds `_build_capital_gains_transactions`: skip transactions whose type
is not Sell/Withdrawal, and those whose `realized_gain_usd` is null **or
equal to zero**; append a row for each of the rest, in order. -/
def buildCapitalGainsTransactions (txns : List Transaction) : List CapGainRow :=
  txns.filterMap fun tx =>
    if tx.type == "Sell" || tx.type == "Withdrawal" then
      match tx.realized_gain_usd with
      | none => none
      | some g => if g = 0 then none else some (capGainRowOf tx)
    else none

-- ---------------------------------------------------------------------------
-- _build_income_transactions
-- ---------------------------------------------------------------------------

/-- One row of the income detail list. -/
structure IncomeTxRow where
  tx_id : Nat
  date : Option String
  asset : String
  amount : ℚ
  value_usd : ℚ
  source : String
  type : String
deriving Repr, DecidableEq

/-- Embeds `_build_income_transactions`: one row per Deposit with a truthy
`source`; the row's type is "Reward" when the source contains "reward"
(case-insensitively) and "Other" otherwise. -/
def buildIncomeTransactions (txns : List Transaction) : List IncomeTxRow :=
  txns.filterMap fun tx =>
    if tx.type == "Deposit" && strTruthy tx.source then
      some { tx_id := tx.id, date := tx.timestamp, asset := "BTC",
             amount := tx.amount.getD 0, value_usd := tx.cost_basis_usd.getD 0,
             source := tx.source.getD "",
             type := if containsLower (tx.source.getD "") "reward" then "Reward" else "Other" }
    else none

-- ---------------------------------------------------------------------------
-- _build_gifts_donations_lost and _build_expenses_list
-- ---------------------------------------------------------------------------

/-- One row of the gifts/donations/lost list. -/
structure GiftRow where
  tx_id : Nat
  date : Option String
  asset : String
  amount : ℚ
  value_usd : ℚ
  purpose : String
deriving Repr, DecidableEq

/-- Embeds `_build_gifts_donations_lost`: all withdrawals whose truthy
`purpose` lower-cases exactly to "gift", "donation" or "lost". -/
def buildGiftsDonationsLost (txns : List Transaction) : List GiftRow :=
  txns.filterMap fun tx =>
    if tx.type == "Withdrawal" && strTruthy tx.purpose then
      let p := lowerStr (tx.purpose.getD "")
      if p == "gift" || p == "donation" || p == "lost" then
        some { tx_id := tx.id, date := tx.timestamp, asset := "BTC",
               amount := tx.amount.getD 0, value_usd := tx.proceeds_usd.getD 0,
               purpose := tx.purpose.getD "" }
      else none
    else none

/-- One row of the expenses list. -/
structure ExpenseRow where
  tx_id : Nat
  date : Option String
  asset : String
  amount : ℚ
  value_usd : ℚ
  type : String
deriving Repr, DecidableEq

/-- Embeds `_build_expenses_list`: all withdrawals whose truthy `purpose`
lower-cases exactly to "expenses". -/
def buildExpensesList (txns : List Transaction) : List ExpenseRow :=
  txns.filterMap fun tx =>
    if tx.type == "Withdrawal" && strTruthy tx.purpose && (lowerStr (tx.purpose.getD "") == "expenses") then
      some { tx_id := tx.id, date := tx.timestamp, asset := "BTC",
             amount := tx.amount.getD 0, value_usd := tx.proceeds_usd.getD 0,
             type := "Expense" }
    else none

-- ---------------------------------------------------------------------------
-- _gather_data_sources
-- ---------------------------------------------------------------------------

/-- Insertion of a string into a sorted list (ascending by code points, as
Python's `sorted` on `str`). -/
def insertSorted (s : String) : List String → List String
  | [] => [s]
  | x :: xs => if x < s then x :: insertSorted s xs else s :: x :: xs

/-- Insertion sort on strings, ascending. -/
def sortStrings : List String → List String
  | [] => []
  | x :: xs => insertSorted x (sortStrings xs)

/-- Embeds `_gather_data_sources`: the set of truthy `source` values,
returned as a sorted list. -/
def gatherDataSources (txns : List Transaction) : List String :=
  sortStrings ((txns.filterMap fun tx => if strTruthy tx.source then tx.source else none).eraseDups)

-- ---------------------------------------------------------------------------
-- _build_all_transactions_data
-- ---------------------------------------------------------------------------

/-- One row of the full transaction dump. -/
structure AllTxRow where
  id : Nat
  timestamp : Option String
  type : String
  from_account_id : Option Nat
  to_account_id : Option Nat
  amount : ℚ
  fee_amount : ℚ
  fee_currency : Option String
  cost_basis_usd : ℚ
  proceeds_usd : ℚ
  realized_gain_usd : ℚ
  holding_period : Option String
  source : Option String
  purpose : Option String
  is_locked : Bool
  created_at : Option String
  updated_at : Option String
deriving Repr, DecidableEq

/-- Embeds `_build_all_transactions_data`: every transaction projected with
nulls-as-zero numeric fields (`float(x or 0)`, and for `realized_gain_usd`
the conditional `float(... ) if tx.realized_gain_usd else 0`, which also
yields the value of the field with null as zero). -/
def buildAllTransactionsData (txns : List Transaction) : List AllTxRow :=
  txns.map fun tx =>
    { id := tx.id, timestamp := tx.timestamp, type := tx.type,
      from_account_id := tx.from_account_id, to_account_id := tx.to_account_id,
      amount := tx.amount.getD 0, fee_amount := tx.fee_amount.getD 0,
      fee_currency := tx.fee_currency,
      cost_basis_usd := tx.cost_basis_usd.getD 0,
      proceeds_usd := tx.proceeds_usd.getD 0,
      realized_gain_usd := tx.realized_gain_usd.getD 0,
      holding_period := tx.holding_period, source := tx.source,
      purpose := tx.purpose, is_locked := tx.is_locked,
      created_at := tx.created_at, updated_at := tx.updated_at }

-- ---------------------------------------------------------------------------
-- _build_lot_disposals_for_period and _build_ledger_entries_for_period
-- ---------------------------------------------------------------------------

/-- One row of the lot-disposal dump. -/
structure LotDisposalRow where
  id : Nat
  transaction_id : Nat
  lot_id : Nat
  disposed_btc : ℚ
  disposal_basis_usd : ℚ
  proceeds_usd_for_that_portion : ℚ
  realized_gain_usd : ℚ
  holding_period : Option String
deriving Repr, DecidableEq

/-- Embeds `_build_lot_disposals_for_period` over its query result. -/
def buildLotDisposalsForPeriod (disposals : List LotDisposalRec) : List LotDisposalRow :=
  disposals.map fun d =>
    { id := d.id, transaction_id := d.transaction_id, lot_id := d.lot_id,
      disposed_btc := d.disposed_btc.getD 0,
      disposal_basis_usd := d.disposal_basis_usd.getD 0,
      proceeds_usd_for_that_portion := d.proceeds_usd_for_that_portion.getD 0,
      realized_gain_usd := d.realized_gain_usd.getD 0,
      holding_period := d.holding_period }

/-- One row of the ledger-entry dump. -/
structure LedgerRow where
  id : Nat
  transaction_id : Nat
  account_id : Nat
  amount : ℚ
  currency : String
  entry_type : String
  transaction_timestamp : Option String
  account_name : Option String
deriving Repr, DecidableEq

/-- Embeds `_build_ledger_entries_for_period` over its query result. -/
def buildLedgerEntriesForPeriod (entries : List LedgerEntryRec) : List LedgerRow :=
  entries.map fun le =>
    { id := le.id, transaction_id := le.transaction_id,
      account_id := le.account_id, amount := le.amount,
      currency := le.currency, entry_type := le.entry_type,
      transaction_timestamp := le.transaction_timestamp,
      account_name := le.account_name }

-- ---------------------------------------------------------------------------
-- generate_report_data
-- ---------------------------------------------------------------------------

/-- The frozen input snapshot of one report-generation call: the query
results for the year window and the three opaque collaborator outputs. -/
structure Snapshot where
  txns : List Transaction
  openLots : List BitcoinLot
  lotDisposals : List LotDisposalRec
  ledgerEntries : List LedgerEntryRec
  accountBalances : String
  overallCalcs : String
  averageBtcBasis : ℚ
deriving Repr, DecidableEq

/-- The dataset returned by `generate_report_data`, with its exact key set. -/
structure ReportDataset where
  tax_year : Nat
  report_date : String
  period : String
  capital_gains_summary : CapitalGainsSummary
  income_summary : IncomeSummary
  asset_summary : List AssetRow
  end_of_year_balances : List EoyRow
  capital_gains_transactions : List CapGainRow
  income_transactions : List IncomeTxRow
  gifts_donations_lost : List GiftRow
  expenses : List ExpenseRow
  data_sources : List String
  all_transactions : List AllTxRow
  lot_disposals : List LotDisposalRow
  ledger_entries : List LedgerRow
  account_balances : String
  overall_calcs : String
  average_btc_cost_basis : ℚ
deriving Repr, DecidableEq

/-- Embeds `generate_report_data`.  `now` models
`datetime.now(timezone.utc).strftime("%Y-%m-%d %H:%M:%S")`, the wall-clock
timestamp the function reads besides its data inputs. -/
def generateReportData (snap : Snapshot) (year : Nat) (now : String) : ReportDataset :=
  { tax_year := year,
    report_date := now,
    period := toString year ++ "-01-01 to " ++ toString year ++ "-12-31",
    capital_gains_summary := buildCapitalGainsSummary snap.txns,
    income_summary := buildIncomeSummary snap.txns,
    asset_summary := buildAssetSummary snap.txns,
    end_of_year_balances := buildEndOfYearBalances snap.openLots,
    capital_gains_transactions := buildCapitalGainsTransactions snap.txns,
    income_transactions := buildIncomeTransactions snap.txns,
    gifts_donations_lost := buildGiftsDonationsLost snap.txns,
    expenses := buildExpensesList snap.txns,
    data_sources := gatherDataSources snap.txns,
    all_transactions := buildAllTransactionsData snap.txns,
    lot_disposals := buildLotDisposalsForPeriod snap.lotDisposals,
    ledger_entries := buildLedgerEntriesForPeriod snap.ledgerEntries,
    account_balances := snap.accountBalances,
    overall_calcs := snap.overallCalcs,
    average_btc_cost_basis := snap.averageBtcBasis }

-- ---------------------------------------------------------------------------
-- C3: determinism of generate_report_data
-- ---------------------------------------------------------------------------

/-- A frozen snapshot with empty period data, used as a concrete input. -/
def emptySnap : Snapshot :=
  { txns := [], openLots := [], lotDisposals := [], ledgerEntries := [],
    accountBalances := "balances", overallCalcs := "calcs", averageBtcBasis := 0 }

/-- The dataset with its report_date field replaced. -/
def withReportDate (d : ReportDataset) (r : String) : ReportDataset :=
  { d with report_date := r }

-- ---------------------------------------------------------------------------
-- C2: purpose plays no role in the capital gains summary
-- ---------------------------------------------------------------------------

/-- A Withdrawal whose purpose lower-cases to "lost" and whose realized gain
is non-null. -/
def c2_tx : Transaction :=
  { baseTx with
    id := 2, type := "Withdrawal", purpose := some "Lost",
    amount := some 1, proceeds_usd := some 500, cost_basis_usd := some 400,
    realized_gain_usd := some 100 }

-- ---------------------------------------------------------------------------
-- C1: the capital-gains detail projector also filters out zero gains
-- ---------------------------------------------------------------------------

/-- A Sell with realized_gain_usd present and exactly zero. -/
def c1_tx : Transaction :=
  { baseTx with
    id := 1, type := "Sell",
    timestamp := some "2024-03-01T00:00:00+00:00", amount := some 1,
    proceeds_usd := some 1000, cost_basis_usd := some 1000,
    realized_gain_usd := some 0 }

-- ---------------------------------------------------------------------------
-- C5: routing of disposals by holding_period
-- ---------------------------------------------------------------------------

/-- Elementwise sum of two buckets. -/
def addBucket (a b : GainsBucket) : GainsBucket :=
  { proceeds := a.proceeds + b.proceeds, basis := a.basis + b.basis,
    gain := a.gain + b.gain }

/-- Spec 4.2 bucket: elementwise decimal sums of proceeds, basis and gain,
nulls as zero, over a set of transactions. -/
def bucketOf (txs : List Transaction) : GainsBucket :=
  { proceeds := (txs.map fun tx => tx.proceeds_usd.getD 0).sum,
    basis := (txs.map fun tx => tx.cost_basis_usd.getD 0).sum,
    gain := (txs.map fun tx => tx.realized_gain_usd.getD 0).sum }

-- ---------------------------------------------------------------------------
-- C7: income summary buckets
-- ---------------------------------------------------------------------------

/-- Decimal sum of `cost_basis_usd` (nulls as zero) over a set of
transactions: the spec's "USD value of the deposit". -/
def sumCB (txs : List Transaction) : ℚ :=
  (txs.map fun tx => tx.cost_basis_usd.getD 0).sum

-- ---------------------------------------------------------------------------
-- C4: the valuation price is hardcoded, not an external input
-- ---------------------------------------------------------------------------

/-- The scenario lot of the claim: total 1.0 BTC, 0.5 BTC remaining, 20000.00
USD basis. -/
def c4_lot : BitcoinLot :=
  { id := 1, acquired_date := some "2024-01-01T00:00:00+00:00",
    total_btc := some 1, remaining_btc := 1/2, cost_basis_usd := some 20000 }

-- ---------------------------------------------------------------------------
-- C8: per-lot fraction and rounding
-- ---------------------------------------------------------------------------

/-- The claim's fraction: remaining_btc / total_btc, substituting 1 when
total_btc is zero or absent. -/
def fractionSpec (lot : BitcoinLot) : ℚ :=
  match lot.total_btc with
  | none => 1
  | some t => if t = 0 then 1 else lot.remaining_btc / t

/-- A small concrete lot with a positive total, for the witness. -/
def c8_lot : BitcoinLot :=
  { id := 7, acquired_date := none, total_btc := some 2, remaining_btc := 1,
    cost_basis_usd := some 3 }

/-- A Deposit from a mining source, for the witness. -/
def c10_tx : Transaction :=
  { baseTx with
    id := 3, type := "Deposit", source := some "Mining Pool Payout",
    amount := some 1, cost_basis_usd := some 100 }

/-- The row the projector emits for `c10_tx`: its type is "Other", although
the income summary routes the same deposit to Mining. -/
def c10_row : IncomeTxRow :=
  { tx_id := 3, date := none, asset := "BTC", amount := 1, value_usd := 100,
    source := "Mining Pool Payout", type := "Other" }

/-- The embedded floor agrees with Mathlib's floor on rationals. -/
theorem ratFloor_eq_floor (q : ℚ) : ratFloor q = ⌊q⌋ := by
  rw [ratFloor, Int.fdiv_eq_ediv q.num (Int.natCast_nonneg q.den)]
  exact Rat.floor_def.symm

/-- Rounding half-down, rewritten through Mathlib's floor for computation
with norm_num. -/
theorem roundHalfDown_eq (x : ℚ) :
    roundHalfDown x = if 0 ≤ x then -⌊1/2 - x⌋ else ⌊x + 1/2⌋ := by
  rw [roundHalfDown, ratCeil, ratFloor_eq_floor, ratFloor_eq_floor, neg_sub]

/-- Cent quantization, rewritten through Mathlib's floor for computation
with norm_num. -/
theorem quantize2_eq (x : ℚ) :
    quantize2 x
      = ((if 0 ≤ x * 100 then -⌊1/2 - x * 100⌋ else ⌊x * 100 + 1/2⌋ : ℤ) : ℚ) / 100 := by
  rw [quantize2, roundHalfDown_eq]

example : quantize2 (9415313/200) = 4707656/100 := by rw [quantize2_eq]; norm_num
example : quantize2 (25/1000) = 2/100 := by rw [quantize2_eq]; norm_num
example : quantize2 (26/1000) = 3/100 := by rw [quantize2_eq]; norm_num
example : quantize2 (-25/1000) = -2/100 := by rw [quantize2_eq]; norm_num

example : containsLower "Mining Pool Payout" "mining" = true := by decide
example : containsLower "Staking Reward" "reward" = true := by decide
example : containsLower "gift" "reward" = false := by decide

-- ===========================================================================
-- Claim theorems
-- ===========================================================================

/-- A filterMap whose function emits exactly on a predicate equals the map of
the row constructor over the filtered list. -/
theorem filterMap_eq_map_filter {α β : Type _} (f : α → Option β) (p : α → Bool)
    (g : α → β) (h : ∀ x, f x = if p x then some (g x) else none) :
    ∀ l : List α, l.filterMap f = (l.filter p).map g := by
  intro l
  induction l with
  | nil => rfl
  | cons x xs ih =>
    rw [List.filterMap_cons, List.filter_cons, h x]
    by_cases hp : p x = true
    · simp [hp, ih]
    · have hp' : p x = false := by simpa using hp
      simp [hp', ih]

-- ---------------------------------------------------------------------------
-- C9: asset summary is a hardcoded constant
-- ---------------------------------------------------------------------------

/-- Claim C9: for every input transaction list, the asset_summary list is the
single constant row with asset "BTC", profit 32031.99, loss 3150.70 and
net 28881.29; it is never derived from the period's transactions. -/
theorem c9_asset_summary_constant (txns : List Transaction) :
    buildAssetSummary txns
      = [{ asset := "BTC", profit := 3203199/100, loss := 31507/10, net := 2888129/100 }] := rfl

-- ---------------------------------------------------------------------------
-- C6: total = short + long, elementwise, in exact decimal arithmetic
-- ---------------------------------------------------------------------------

/-- Claim C6: for every transaction list, the capital gains summary satisfies
total.proceeds = short.proceeds + long.proceeds, and likewise for basis and
gain, as exact decimal equalities of the emitted values. -/
theorem c6_total_additivity (txns : List Transaction) :
    (buildCapitalGainsSummary txns).total.proceeds
        = (buildCapitalGainsSummary txns).short_term.proceeds
          + (buildCapitalGainsSummary txns).long_term.proceeds
    ∧ (buildCapitalGainsSummary txns).total.basis
        = (buildCapitalGainsSummary txns).short_term.basis
          + (buildCapitalGainsSummary txns).long_term.basis
    ∧ (buildCapitalGainsSummary txns).total.gain
        = (buildCapitalGainsSummary txns).short_term.gain
          + (buildCapitalGainsSummary txns).long_term.gain :=
  ⟨rfl, rfl, rfl⟩

/-- Claim C3 counterexample: two calls over the same frozen snapshot but at
different wall-clock instants differ, because the report_date field records
the generation time; the output is not determined by the data snapshot
alone. -/
theorem c3_counterexample :
    generateReportData emptySnap 2024 "2024-06-01 00:00:00"
      ≠ generateReportData emptySnap 2024 "2024-06-01 00:00:01" := by
  intro h
  exact absurd (congrArg ReportDataset.report_date h) (by decide)

/-- Claim C3 amended: over a fixed frozen snapshot, two calls of
generate_report_data for the same year agree on every field except
report_date (which records the wall-clock generation time); with the clock
also frozen the output is identical. -/
theorem c3_amended_deterministic (snap : Snapshot) (year : Nat) (t1 t2 : String) :
    withReportDate (generateReportData snap year t1) ""
      = withReportDate (generateReportData snap year t2) "" := rfl

/-- Claim C2 counterexample: a Withdrawal with purpose "Lost" (lower-cased
"lost") and non-null realized_gain_usd IS counted by the capital gains
summary: it increments number_of_disposals and lands in the short-term
bucket, while also appearing in the gifts/donations/lost list. -/
theorem c2_counterexample :
    (lowerStr (c2_tx.purpose.getD "") == "lost") = true
    ∧ c2_tx.type = "Withdrawal"
    ∧ c2_tx.realized_gain_usd = some 100
    ∧ (buildCapitalGainsSummary [c2_tx]).number_of_disposals = 1
    ∧ (buildCapitalGainsSummary [c2_tx]).short_term.gain = 100
    ∧ (buildGiftsDonationsLost [c2_tx]).length = 1 := by
  with_unfolding_all decide

/-- The capital gains loop never reads the purpose column. -/
theorem gainsStep_purpose (acc : GainsAcc) (tx : Transaction) (p : Option String) :
    gainsStep acc { tx with purpose := p } = gainsStep acc tx := rfl

/-- Claim C2 amended: the capital gains summary ignores purpose entirely —
rewriting the purpose of every transaction (e.g. to "lost") leaves the
summary unchanged, so a Withdrawal with purpose "lost" and non-null
realized_gain_usd is counted as a disposal like any other. -/
theorem c2_amended_purpose_ignored (txns : List Transaction)
    (f : Transaction → Option String) :
    buildCapitalGainsSummary (txns.map fun tx => { tx with purpose := f tx })
      = buildCapitalGainsSummary txns := by
  unfold buildCapitalGainsSummary
  rw [List.foldl_map]
  simp only [gainsStep_purpose]

/-- Claim C1 counterexample: a Sell with realized_gain_usd = 0 satisfies the
section 4.1 Disposal predicate, yet the capital-gains detail projector emits
no row for it. -/
theorem c1_counterexample :
    disposalPred c1_tx = true ∧ buildCapitalGainsTransactions [c1_tx] = [] := by
  with_unfolding_all decide

/-- Claim C1 amended: the capital-gains detail projector emits one row, in
order, for exactly the transactions satisfying the section 4.1 Disposal
predicate whose realized_gain_usd is also nonzero; a disposal with
realized_gain_usd exactly zero is skipped. -/
theorem c1_amended_rows (txns : List Transaction) :
    buildCapitalGainsTransactions txns
      = (txns.filter fun tx =>
          disposalPred tx && !(tx.realized_gain_usd.getD 0 == 0)).map capGainRowOf := by
  unfold buildCapitalGainsTransactions
  refine filterMap_eq_map_filter _ _ _ (fun tx => ?_) txns
  rcases hg : tx.realized_gain_usd with _ | g
  · by_cases ht : (tx.type == "Sell" || tx.type == "Withdrawal") = true <;>
      simp [disposalPred, hg, ht]
  · by_cases ht : (tx.type == "Sell" || tx.type == "Withdrawal") = true <;>
      by_cases hz : g = 0 <;>
        simp [disposalPred, hg, ht, hz]

/-- The capital gains loop, from any starting accumulator, adds exactly the
disposal count and the bucket sums of the short- and long-routed disposals. -/
theorem gains_foldl (txns : List Transaction) : ∀ acc : GainsAcc,
    txns.foldl gainsStep acc =
      { count := acc.count + (txns.filter disposalPred).length,
        st := addBucket acc.st
                (bucketOf (txns.filter fun tx => disposalPred tx && !isLong tx)),
        lt := addBucket acc.lt
                (bucketOf (txns.filter fun tx => disposalPred tx && isLong tx)) } := by
  induction txns with
  | nil =>
    intro acc
    simp [bucketOf, addBucket]
  | cons tx rest ih =>
    intro acc
    rw [List.foldl_cons, List.filter_cons, List.filter_cons, List.filter_cons, ih]
    rcases hg : tx.realized_gain_usd with _ | g
    · have hd : disposalPred tx = false := by simp [disposalPred, hg]
      have hstep : gainsStep acc tx = acc := by
        unfold gainsStep
        rw [hg]
        by_cases ht : (tx.type == "Sell" || tx.type == "Withdrawal") = true <;>
          simp [ht]
      rw [hstep]
      simp [hd]
    · by_cases ht : (tx.type == "Sell" || tx.type == "Withdrawal") = true
      · have hd : disposalPred tx = true := by simp [disposalPred, hg, ht]
        by_cases hl : isLong tx = true
        · have hstep : gainsStep acc tx =
              { count := acc.count + 1, st := acc.st,
                lt := { proceeds := acc.lt.proceeds + tx.proceeds_usd.getD 0,
                        basis := acc.lt.basis + tx.cost_basis_usd.getD 0,
                        gain := acc.lt.gain + g } } := by
            unfold gainsStep
            rw [hg]
            simp only [ht, if_true]
            simp only [isLong] at hl
            simp [hl]
          rw [hstep]
          simp only [hd, hl, Bool.not_true, Bool.and_self, Bool.and_true,
            Bool.and_false, if_true, if_false]
          simp [bucketOf, addBucket, hg, GainsAcc.mk.injEq, GainsBucket.mk.injEq]
          refine ⟨by omega, by ring, by ring, by ring⟩
        · have hl' : isLong tx = false := by simpa using hl
          have hstep : gainsStep acc tx =
              { count := acc.count + 1,
                st := { proceeds := acc.st.proceeds + tx.proceeds_usd.getD 0,
                        basis := acc.st.basis + tx.cost_basis_usd.getD 0,
                        gain := acc.st.gain + g },
                lt := acc.lt } := by
            unfold gainsStep
            rw [hg]
            simp only [ht, if_true]
            simp only [isLong] at hl'
            simp [hl']
          rw [hstep]
          simp only [hd, hl', Bool.not_false, Bool.and_self, Bool.and_true,
            Bool.and_false, if_true, if_false]
          simp [bucketOf, addBucket, hg, GainsAcc.mk.injEq, GainsBucket.mk.injEq]
          refine ⟨by omega, by ring, by ring, by ring⟩
      · have hd : disposalPred tx = false := by simp [disposalPred, ht]
        have hstep : gainsStep acc tx = acc := by
          unfold gainsStep
          simp [ht]
        rw [hstep]
        simp [hd]

/-- Claim C5: every Disposal-classified transaction with holding_period
"LONG" is accumulated into the long-term bucket, every other
Disposal-classified transaction (any other value, including null) into the
short-term bucket, and the disposal count is the number of
Disposal-classified transactions, so no disposal lands in both buckets. -/
theorem c5_holding_period_routing (txns : List Transaction) :
    (buildCapitalGainsSummary txns).long_term
        = bucketOf (txns.filter fun tx => disposalPred tx && isLong tx)
    ∧ (buildCapitalGainsSummary txns).short_term
        = bucketOf (txns.filter fun tx => disposalPred tx && !isLong tx)
    ∧ (buildCapitalGainsSummary txns).number_of_disposals
        = (txns.filter disposalPred).length := by
  have h := gains_foldl txns ⟨0, ⟨0, 0, 0⟩, ⟨0, 0, 0⟩⟩
  refine ⟨?_, ?_, ?_⟩ <;>
    simp [buildCapitalGainsSummary, h, addBucket]

/-- The income loop, from any starting accumulator, adds exactly the
cost-basis sums of the income deposits routed to each sub-bucket, and of all
income deposits to the total. -/
theorem income_foldl (txns : List Transaction) : ∀ acc : IncomeSummary,
    txns.foldl incomeStep acc =
      { Mining := acc.Mining + sumCB (txns.filter fun tx => incomePred tx && srcMining tx),
        Reward := acc.Reward
          + sumCB (txns.filter fun tx => incomePred tx && (!srcMining tx && srcReward tx)),
        Other := acc.Other
          + sumCB (txns.filter fun tx => incomePred tx && (!srcMining tx && !srcReward tx)),
        Total := acc.Total + sumCB (txns.filter incomePred) } := by
  induction txns with
  | nil =>
    intro acc
    simp [sumCB]
  | cons tx rest ih =>
    intro acc
    rw [List.foldl_cons, List.filter_cons, List.filter_cons, List.filter_cons,
      List.filter_cons, ih]
    by_cases hi : incomePred tx = true
    · have hc : (tx.type == "Deposit" && strTruthy tx.source) = true := hi
      by_cases hm : srcMining tx = true
      · have hm' : containsSub "mining".data (lowerStr (tx.source.getD "")).data = true := hm
        have hstep : incomeStep acc tx =
            { acc with Mining := acc.Mining + tx.cost_basis_usd.getD 0,
                       Total := acc.Total + tx.cost_basis_usd.getD 0 } := by
          unfold incomeStep
          simp only [hc, if_true, hm', if_pos]
        rw [hstep]
        simp only [hi, hm, Bool.and_self, Bool.and_true, Bool.not_true,
          Bool.false_and, Bool.and_false, if_true, if_false]
        simp [sumCB, IncomeSummary.mk.injEq]
        refine ⟨by ring, by ring⟩
      · have hm' : srcMining tx = false := by simpa using hm
        have hmc : containsSub "mining".data (lowerStr (tx.source.getD "")).data = false := hm'
        by_cases hr : srcReward tx = true
        · have hrc : (containsSub "reward".data (lowerStr (tx.source.getD "")).data
              || containsSub "interest".data (lowerStr (tx.source.getD "")).data) = true := hr
          have hstep : incomeStep acc tx =
              { acc with Reward := acc.Reward + tx.cost_basis_usd.getD 0,
                         Total := acc.Total + tx.cost_basis_usd.getD 0 } := by
            unfold incomeStep
            simp only [hc, if_true, hmc, hrc, Bool.false_eq_true, if_false, if_pos]
          rw [hstep]
          simp only [hi, hm', hr, Bool.and_self, Bool.and_true, Bool.not_false,
            Bool.true_and, Bool.and_false, Bool.false_and, Bool.false_eq_true,
            if_true, if_false]
          simp [sumCB, IncomeSummary.mk.injEq]
          refine ⟨by ring, by ring⟩
        · have hr' : srcReward tx = false := by simpa using hr
          have hrc : (containsSub "reward".data (lowerStr (tx.source.getD "")).data
              || containsSub "interest".data (lowerStr (tx.source.getD "")).data) = false := hr'
          have hstep : incomeStep acc tx =
              { acc with Other := acc.Other + tx.cost_basis_usd.getD 0,
                         Total := acc.Total + tx.cost_basis_usd.getD 0 } := by
            unfold incomeStep
            simp only [hc, if_true, hmc, hrc, Bool.false_eq_true, if_false, if_pos]
          rw [hstep]
          simp only [hi, hm', hr', Bool.and_self, Bool.and_true, Bool.not_false,
            Bool.true_and, Bool.and_false, Bool.false_and, Bool.false_eq_true,
            Bool.not_true, if_true, if_false]
          simp [sumCB, IncomeSummary.mk.injEq]
          refine ⟨by ring, by ring⟩
    · have hi' : incomePred tx = false := by simpa using hi
      have hc : (tx.type == "Deposit" && strTruthy tx.source) = false := hi'
      have hstep : incomeStep acc tx = acc := by
        unfold incomeStep
        simp [hc]
      rw [hstep]
      simp [hi']

/-- The three income sub-bucket filters partition the income-classified
transactions, so their sums add up to the total's sum. -/
theorem sumCB_partition (txns : List Transaction) :
    sumCB (txns.filter fun tx => incomePred tx && srcMining tx)
      + sumCB (txns.filter fun tx => incomePred tx && (!srcMining tx && srcReward tx))
      + sumCB (txns.filter fun tx => incomePred tx && (!srcMining tx && !srcReward tx))
      = sumCB (txns.filter incomePred) := by
  induction txns with
  | nil => simp [sumCB]
  | cons tx rest ih =>
    rw [List.filter_cons, List.filter_cons, List.filter_cons, List.filter_cons]
    by_cases hi : incomePred tx = true
    · by_cases hm : srcMining tx = true
      · simp only [hi, hm, Bool.and_self, Bool.and_true, Bool.not_true,
          Bool.false_and, Bool.and_false, if_true, if_false]
        simp [sumCB] at ih ⊢
        linarith [ih]
      · have hm' : srcMining tx = false := by simpa using hm
        by_cases hr : srcReward tx = true
        · simp only [hi, hm', hr, Bool.and_self, Bool.and_true, Bool.not_false,
            Bool.true_and, Bool.and_false, Bool.false_and, Bool.false_eq_true,
            if_true, if_false]
          simp [sumCB] at ih ⊢
          linarith [ih]
        · have hr' : srcReward tx = false := by simpa using hr
          simp only [hi, hm', hr', Bool.and_self, Bool.and_true, Bool.not_false,
            Bool.true_and, Bool.and_false, Bool.false_and, Bool.false_eq_true,
            Bool.not_true, if_true, if_false]
          simp [sumCB] at ih ⊢
          linarith [ih]
    · have hi' : incomePred tx = false := by simpa using hi
      simp only [hi', Bool.false_and, Bool.false_eq_true, if_false]
      exact ih

/-- Claim C7: the income summary's four keys are always present (zero on the
empty input), every Income-classified Deposit is routed into exactly one of
the Mining/Reward/Other sub-buckets (by the mutually exclusive tests below),
and Mining + Reward + Other = Total exactly. -/
theorem c7_income_buckets (txns : List Transaction) :
    (buildIncomeSummary txns).Mining + (buildIncomeSummary txns).Reward
        + (buildIncomeSummary txns).Other = (buildIncomeSummary txns).Total
    ∧ (buildIncomeSummary txns).Mining
        = sumCB (txns.filter fun tx => incomePred tx && srcMining tx)
    ∧ (buildIncomeSummary txns).Reward
        = sumCB (txns.filter fun tx => incomePred tx && (!srcMining tx && srcReward tx))
    ∧ (buildIncomeSummary txns).Other
        = sumCB (txns.filter fun tx => incomePred tx && (!srcMining tx && !srcReward tx))
    ∧ buildIncomeSummary [] = { Mining := 0, Reward := 0, Other := 0, Total := 0 } := by
  have h := income_foldl txns ⟨0, 0, 0, 0⟩
  have hpart := sumCB_partition txns
  refine ⟨?_, ?_, ?_, ?_, rfl⟩ <;>
    simp [buildIncomeSummary, h]
  linarith [hpart]

/-- Claim C4 counterexample: the code has no valuation-price input; it values
the scenario lot at its hardcoded demo price 94153.13, so the emitted row is
quantity 0.5, cost 10000.00, value 47076.56 — not the value 20000.00 the
claim derives from an external price of 40000.00. -/
theorem c4_counterexample :
    (buildEndOfYearBalances [c4_lot]).head?.map EoyRow.quantity = some (1/2)
    ∧ (buildEndOfYearBalances [c4_lot]).head?.map EoyRow.cost = some 10000
    ∧ (buildEndOfYearBalances [c4_lot]).head?.map EoyRow.value = some (4707656/100)
    ∧ (4707656/100 : ℚ) ≠ 20000 := by
  refine ⟨?_, ?_, ?_, by norm_num⟩ <;>
    simp [buildEndOfYearBalances, eoyRowOf, lotFraction, c4_lot, eoyPrice, quantize2_eq] <;>
    norm_num

/-- Claim C4 amended: the end-of-year valuation price is the hardcoded
constant 94153.13 applied uniformly to every open lot's remaining quantity;
the scenario lot with total 1.0, remaining 0.5 and basis 20000.00 yields
quantity 0.5, cost 10000.00 and value 47076.56. -/
theorem c4_amended_hardcoded_price (lots : List BitcoinLot) :
    (buildEndOfYearBalances lots).dropLast = lots.map eoyRowOf
    ∧ (lots.map fun lot => (eoyRowOf lot).value)
        = (lots.map fun lot => quantize2 (lot.remaining_btc * (9415313/100)))
    ∧ (eoyRowOf c4_lot).quantity = 1/2
    ∧ (eoyRowOf c4_lot).cost = 10000
    ∧ (eoyRowOf c4_lot).value = 4707656/100 := by
  refine ⟨?_, rfl, rfl, ?_, ?_⟩
  · simp [buildEndOfYearBalances]
  · simp [eoyRowOf, lotFraction, c4_lot, quantize2_eq]
    norm_num
  · simp [eoyRowOf, lotFraction, c4_lot, eoyPrice, quantize2_eq]
    norm_num

/-- Claim C8: for every open lot with non-negative total_btc (the data
model's invariant), the emitted row uses fraction = remaining/total with
fraction = 1 when total_btc is zero or absent — the computation is total and
never fails — and emits cost = cost_basis_usd x fraction and value =
remaining_btc x price, each quantized to cents with round-half-down. -/
theorem c8_fraction_rounding (lot : BitcoinLot) (h : 0 ≤ lot.total_btc.getD 0) :
    lotFraction lot = fractionSpec lot
    ∧ (eoyRowOf lot).cost = quantize2 (lot.cost_basis_usd.getD 0 * fractionSpec lot)
    ∧ (eoyRowOf lot).value = quantize2 (lot.remaining_btc * eoyPrice) := by
  have hfrac : lotFraction lot = fractionSpec lot := by
    rcases ht : lot.total_btc with _ | t
    · simp [lotFraction, fractionSpec, ht]
    · rw [ht] at h
      simp only [Option.getD_some] at h
      rcases lt_or_eq_of_le h with hpos | hzero
      · simp [lotFraction, fractionSpec, ht, hpos, ne_of_gt hpos]
      · simp [lotFraction, fractionSpec, ht, ← hzero]
  exact ⟨hfrac, by simp [eoyRowOf, hfrac], rfl⟩

/-- Witness for C8 at a concrete lot. -/
theorem c8_witness :
    0 ≤ c8_lot.total_btc.getD 0
    ∧ (lotFraction c8_lot = fractionSpec c8_lot
       ∧ (eoyRowOf c8_lot).cost = quantize2 (c8_lot.cost_basis_usd.getD 0 * fractionSpec c8_lot)
       ∧ (eoyRowOf c8_lot).value = quantize2 (c8_lot.remaining_btc * eoyPrice)) := by
  have h : 0 ≤ c8_lot.total_btc.getD 0 := by norm_num [c8_lot]
  exact ⟨h, c8_fraction_rounding c8_lot h⟩

-- ---------------------------------------------------------------------------
-- C10: the income detail row's type field
-- ---------------------------------------------------------------------------

/-- Claim C10: every income detail row's type is "Reward" exactly when the
row's source contains "reward" case-insensitively and "Other" otherwise; it
is never "Mining", even for sources containing "mining" or "interest" —
diverging from the summary's sub-bucket rules. -/
theorem c10_income_type_rule (txns : List Transaction) :
    ∀ row ∈ buildIncomeTransactions txns,
      row.type = (if containsLower row.source "reward" then "Reward" else "Other")
      ∧ row.type ≠ "Mining" := by
  intro row hrow
  simp only [buildIncomeTransactions, List.mem_filterMap] at hrow
  obtain ⟨tx, _, hmk⟩ := hrow
  by_cases hc : (tx.type == "Deposit" && strTruthy tx.source) = true
  · rw [if_pos hc] at hmk
    cases hmk
    refine ⟨rfl, ?_⟩
    by_cases hr : containsLower (tx.source.getD "") "reward" = true <;> simp [hr]
  · rw [if_neg hc] at hmk
    cases hmk

/-- Witness for C10: the concrete mining-source deposit's row satisfies the
type rule (and is "Other", not "Mining"). -/
theorem c10_witness :
    c10_row ∈ buildIncomeTransactions [c10_tx]
    ∧ (c10_row.type = (if containsLower c10_row.source "reward" then "Reward" else "Other")
       ∧ c10_row.type ≠ "Mining") := by
  have hm : c10_row ∈ buildIncomeTransactions [c10_tx] := by
    with_unfolding_all decide
  exact ⟨hm, c10_income_type_rule [c10_tx] c10_row hm⟩
